import Mathlib

/-!
# Economic Governor — verification of the core rule-evaluation engine

Shallow embedding of the repository's core logic: the derived-metrics
calculator (`pva`, `calcWeek`), the economic governor (`runModule1`) and the
funnel diagnostician (`runModule2`, `buildStep1`–`buildStep6`, `buildRCA`).

Modelling conventions:
* JavaScript numbers are embedded as `ℚ`; nullable fields as `Option ℚ`.
* JS truthiness tests on numbers (`x ? _ : _`, `a && b`) are embedded as
  "is some and nonzero"; `x != null` as `isSome`.
* JS relational comparison against `null` coerces `null` to `0` (`jsNum`).
* Calling a method such as `.toFixed` on a `null` value throws a
  `TypeError`; this is the only partial operation reachable in the core, and
  it is modelled by `toFixed : Option ℚ → Except JsError Unit`.  Step
  builders that contain a reachable `null` dereference return
  `Except JsError FunnelStep`; all other functions are total, matching the
  source, where every other optional access is guarded or coalesced.
* Human-readable strings (findings, reasons, explanations) carry no decision
  logic; they are abstracted to tags (`ScaleReason`, `BiggestLeak`,
  `AllowedScope`, `RCASummary`) that record which branch produced them.  The
  `null`-dereferences that occur while a string is interpolated are kept, via
  `toFixed`.
* The funnel diagnostician is embedded from its current version (the one
  with the Tier-2 RCA over steps 2–4); the purely presentational
  `tier2Diagnosis` rows are omitted from the result record, as no decision
  logic depends on them.
-/

/-- One calendar week's raw inputs (`WeekData` in `types.ts`); every numeric
field is nullable, absence meaning "not yet known". -/
structure WeekData where
  label : String
  weekNum : Nat
  adSpend : Option ℚ
  cmForecast : Option ℚ
  cmActual : Option ℚ
  countForecast : Option ℚ
  countActual : Option ℚ
  aovForecast : Option ℚ
  aovActual : Option ℚ
  cacForecast : Option ℚ
  cacActual : Option ℚ
  cpm : Option ℚ
  ctr : Option ℚ
  cpc : Option ℚ
  frequency : Option ℚ
  metaClicks : Option ℚ
  shopifySessions : Option ℚ
  cvr : Option ℚ
deriving DecidableEq, Repr

/-- The all-`null` week (`EMPTY_WEEK` in `types.ts`). -/
def EMPTY_WEEK : WeekData :=
  { label := "", weekNum := 0, adSpend := none, cmForecast := none,
    cmActual := none, countForecast := none, countActual := none,
    aovForecast := none, aovActual := none, cacForecast := none,
    cacActual := none, cpm := none, ctr := none, cpc := none,
    frequency := none, metaClicks := none, shopifySessions := none,
    cvr := none }

/-- A week together with its derived metrics (`CalculatedWeek`). -/
structure CalculatedWeek extends WeekData where
  cmPva : Option ℚ
  countPva : Option ℚ
  aovPva : Option ℚ
  cacPva : Option ℚ
  unitCmActual : Option ℚ
  unitCmForecast : Option ℚ
  cacAovGap : Option ℚ
  clickSessionRatio : Option ℚ
deriving DecidableEq, Repr

/-- Plan-vs-actual ratio (`pva` in `economicGovernor.ts`): `null` when either
operand is `null` or the forecast is exactly `0`, else `actual/forecast×100`. -/
def pva (actual forecast : Option ℚ) : Option ℚ :=
  match actual, forecast with
  | some a, some f => if f = 0 then none else some (a / f * 100)
  | _, _ => none

/-- Derive a week's computed metrics (`calcWeek`).  The guards
`countActual && countActual > 0` and `shopifySessions > 0` are JS truthiness
plus a sign test, i.e. "is some `n` with `0 < n`". -/
def calcWeek (w : WeekData) : CalculatedWeek :=
  { toWeekData := w
    cmPva := pva w.cmActual w.cmForecast
    countPva := pva w.countActual w.countForecast
    aovPva := pva w.aovActual w.aovForecast
    cacPva := pva w.cacActual w.cacForecast
    unitCmActual :=
      match w.cmActual, w.countActual with
      | some cm, some n => if 0 < n then some (cm / n) else none
      | _, _ => none
    unitCmForecast :=
      match w.cmForecast, w.countForecast with
      | some cm, some n => if 0 < n then some (cm / n) else none
      | _, _ => none
    cacAovGap :=
      match w.cacActual, w.aovActual with
      | some cac, some aov => some (cac - aov)
      | _, _ => none
    clickSessionRatio :=
      match w.metaClicks, w.shopifySessions with
      | some clicks, some sessions =>
          if 0 < sessions then some (clicks / sessions) else none
      | _, _ => none }

/-- Verdict tag (`Verdict` in `types.ts`). -/
inductive Verdict
  | cm_problem
  | volume_problem
  | both
  | neither
deriving DecidableEq, Repr

/-- Scale-permission tag (`ScalePermission` in `types.ts`). -/
inductive ScalePermission
  | denied
  | leak_hunt_only
  | allowed
deriving DecidableEq, Repr

/-- Which `scaleReason` string `runModule1` emitted (the strings carry no
further logic and are abstracted to their branch). -/
inductive ScaleReason
  | cannotScaleIntoLosses
  | cmHealthyGrowVolume
  | withinAcceptableRange
deriving DecidableEq, Repr

/-- Which `biggestLeak` report `runModule1` emitted: the empty string, the
CAC-overspend message, or the AOV-shortfall message. -/
inductive BiggestLeak
  | noLeak
  | cacOverspend
  | aovShortfall
deriving DecidableEq, Repr

/-- Result of the economic governor (`Module1Result`), with the pure-text
fields (`scaleReason`, `biggestLeak`) abstracted to branch tags and the
fixed `warnings` list and explanation strings omitted. -/
structure Module1Result where
  verdict : Verdict
  scalePermission : ScalePermission
  scaleReason : ScaleReason
  cmMirage : Bool
  biggestLeak : BiggestLeak
  biggestLeakDollars : ℚ
  weeks : List CalculatedWeek
  latestWeek : Option CalculatedWeek
deriving DecidableEq, Repr

/-- Average of the non-`null` entries (`avg` in `economicGovernor.ts`);
`null` when every entry is `null`. -/
def avg (values : List (Option ℚ)) : Option ℚ :=
  let valid := values.filterMap id
  if valid.length = 0 then none else some (valid.sum / valid.length)

/-- The filter `runModule1` applies to find "weeks with data": at least
one of `cmActual`, `countActual`, `adSpend` is present. -/
def weekHasData (w : CalculatedWeek) : Bool :=
  w.cmActual.isSome || w.countActual.isSome || w.adSpend.isSome

/-- `calculated.filter(w => w.cmActual != null || w.countActual != null ||
w.adSpend != null)` applied to the derived weeks. -/
def withDataOf (weeks : List WeekData) : List CalculatedWeek :=
  (weeks.map calcWeek).filter weekHasData

/-- `withData.slice(-3)`: the last three weeks-with-data (all of them when
fewer than three exist). -/
def recentWeeksOf (withData : List CalculatedWeek) : List CalculatedWeek :=
  withData.drop (withData.length - 3)

/-- `avg(recentWeeks.map(w => w.countPva))`. -/
def avgCountPva (withData : List CalculatedWeek) : Option ℚ :=
  avg ((recentWeeksOf withData).map (·.countPva))

/-- `avgCountPva != null && avgCountPva < 70`. -/
def hasVolumeProblem (withData : List CalculatedWeek) : Bool :=
  match avgCountPva withData with
  | some a => decide (a < 70)
  | none => false

/-- The CM-problem signal of `runModule1`, as a function of the anchor week:
the two-branch unit-CM comparison followed by the unconditional
CAC/AOV-gap override. -/
def hasCmProblem (latest : Option CalculatedWeek) : Bool :=
  let latestUnitCm := latest.bind (·.unitCmActual)
  let latestUnitCmPlan := latest.bind (·.unitCmForecast)
  let base : Bool :=
    match latestUnitCm, latestUnitCmPlan with
    | some uCm, some uPlan =>
        if uPlan < 0 then decide (uCm < uPlan * 2) else decide (uCm < 0)
    | _, _ => false
  base ||
    match latest.bind (·.cacAovGap) with
    | some g => decide (0 < g)
    | none => false

/-- `totalCmPva != null && totalCmPva > 95 && countPva != null && countPva < 50`
at the anchor week. -/
def cmMirageOf (latest : Option CalculatedWeek) : Bool :=
  match latest with
  | some l =>
      match l.cmPva, l.countPva with
      | some totalCmPva, some countPva =>
          decide (95 < totalCmPva) && decide (countPva < 50)
      | _, _ => false
  | none => false

/-- `(latest.cacActual - latest.cacForecast) * countActual`, taken as `0`
when either CAC operand is missing. -/
def cacGapDollarsOf (l : CalculatedWeek) (n : ℚ) : ℚ :=
  match l.cacActual, l.cacForecast with
  | some ca, some cf => (ca - cf) * n
  | _, _ => 0

/-- `(latest.aovForecast - latest.aovActual) * countActual`, taken as `0`
when either AOV operand is missing. -/
def aovGapDollarsOf (l : CalculatedWeek) (n : ℚ) : ℚ :=
  match l.aovActual, l.aovForecast with
  | some aa, some af => (af - aa) * n
  | _, _ => 0

/-- The biggest-leak block of `runModule1`.  The outer guard
`latest && latest.countActual` is JS truthiness: the anchor exists and its
`countActual` is present and nonzero. -/
def biggestLeakOf (latest : Option CalculatedWeek) : BiggestLeak × ℚ :=
  match latest with
  | some l =>
      match l.countActual with
      | some n =>
          if n = 0 then (BiggestLeak.noLeak, 0)
          else
            let cacGapDollars := cacGapDollarsOf l n
            let aovGapDollars := aovGapDollarsOf l n
            if aovGapDollars < cacGapDollars then
              (BiggestLeak.cacOverspend, cacGapDollars)
            else
              (BiggestLeak.aovShortfall, aovGapDollars)
      | none => (BiggestLeak.noLeak, 0)
  | none => (BiggestLeak.noLeak, 0)

/-- The economic governor (`runModule1` in `economicGovernor.ts`). -/
def runModule1 (weeks : List WeekData) : Module1Result :=
  let calculated := weeks.map calcWeek
  let withData := withDataOf weeks
  let latest := withData.getLast?
  let hasVolume := hasVolumeProblem withData
  let hasCm := hasCmProblem latest
  let leak := biggestLeakOf latest
  { verdict :=
      if hasCm && hasVolume then Verdict.both
      else if hasCm then Verdict.cm_problem
      else if hasVolume then Verdict.volume_problem
      else Verdict.neither
    scalePermission :=
      if hasCm then ScalePermission.denied else ScalePermission.allowed
    scaleReason :=
      if hasCm then ScaleReason.cannotScaleIntoLosses
      else if hasVolume then ScaleReason.cmHealthyGrowVolume
      else ScaleReason.withinAcceptableRange
    cmMirage := cmMirageOf latest
    biggestLeak := leak.1
    biggestLeakDollars := leak.2
    weeks := calculated
    latestWeek := latest }

/-- Funnel-step status (`FunnelStep['status']`). -/
inductive Status
  | pass
  | fail
  | warning
  | no_data
deriving DecidableEq, Repr

/-- A funnel-step result (`FunnelStep`), reduced to its step number and
status; the title, finding, data-source and caution strings carry no
decision logic. -/
structure FunnelStep where
  step : Nat
  status : Status
deriving DecidableEq, Repr

/-- The JS runtime error relevant to this code: calling a method on `null`. -/
inductive JsError
  | typeError
deriving DecidableEq, Repr

/-- `v.toFixed(_)` as used inside template literals: succeeds on a number,
throws a `TypeError` on `null`. -/
def toFixed (v : Option ℚ) : Except JsError Unit :=
  match v with
  | some _ => Except.ok ()
  | none => Except.error JsError.typeError

/-- JS relational comparison coerces `null` to `0`. -/
def jsNum (v : Option ℚ) : ℚ :=
  v.getD 0

/-- Which `allowedScope` string `runModule2` emitted. -/
inductive AllowedScope
  | noData
  | leakHuntOnly
  | volumeGrowth
  | noFunnelIssues
deriving DecidableEq, Repr

/-- Which RCA summary `buildRCA` produced: the collect-Tier-2-data summary,
the healthy-funnel summary, or the primary-cause summary for a given step
number, with `multipleNote` recording whether the note listing the other
unhealthy steps was appended. -/
inductive RCASummary
  | collectTier2Data
  | tier2Healthy
  | primaryCause (step : Nat) (multipleNote : Bool)
deriving DecidableEq, Repr

/-- Result of the funnel diagnostician (`Module2Result`), with the
presentational `tier2Diagnosis` rows omitted and `allowedScope` abstracted
to its branch tag. -/
structure Module2Result where
  allowed : Bool
  allowedScope : AllowedScope
  steps : List FunnelStep
  rcaSummary : Option RCASummary
deriving DecidableEq, Repr

/-- Step 1, Spend → Orders Reality (`buildStep1`).  `prev?.adSpend ? _ : null`
is JS truthiness: the change is computed only when the prior value is present
and nonzero. -/
def buildStep1 (latest : CalculatedWeek) (prev : Option CalculatedWeek) :
    FunnelStep :=
  match latest.adSpend, latest.countActual with
  | some adSpend, some countActual =>
      let spendChange : Option ℚ :=
        prev.bind fun p => p.adSpend.bind fun pa =>
          if pa = 0 then none else some ((adSpend - pa) / pa * 100)
      let orderChange : Option ℚ :=
        prev.bind fun p => p.countActual.bind fun pc =>
          if pc = 0 then none else some ((countActual - pc) / pc * 100)
      match spendChange, orderChange with
      | some sc, some oc =>
          if ¬ (|sc - oc| < 15) ∧ 0 < sc ∧ oc ≤ 0 then
            { step := 1, status := Status.fail }
          else if ¬ (|sc - oc| < 15) then
            { step := 1, status := Status.warning }
          else
            { step := 1, status := Status.pass }
      | _, _ =>
          match latest.cacActual, latest.aovActual with
          | some cac, some aov =>
              if aov < cac then { step := 1, status := Status.fail }
              else { step := 1, status := Status.pass }
          | _, _ => { step := 1, status := Status.pass }
  | _, _ => { step := 1, status := Status.no_data }

/-- Step 2, Attention Quality (`buildStep2`): each present metric is checked
independently and the running status is updated exactly as in the source
(`CTR` overwrites, `Frequency > 2` only upgrades a non-fail status). -/
def buildStep2 (latest : CalculatedWeek) : FunnelStep :=
  if latest.cpm.isNone && latest.ctr.isNone && latest.frequency.isNone then
    { step := 2, status := Status.no_data }
  else
    let status := Status.pass
    let status :=
      match latest.cpm with
      | some cpm => if 30 < cpm then Status.warning else status
      | none => status
    let status :=
      match latest.ctr with
      | some ctr =>
          if ctr < 1 then Status.fail
          else if ctr < 1.5 then Status.warning
          else status
      | none => status
    let status :=
      match latest.frequency with
      | some fr =>
          if 3 < fr then Status.fail
          else if 2 < fr then
            (if status ≠ Status.fail then Status.warning else status)
          else status
      | none => status
    { step := 2, status := status }

/-- Step 3, Click → Session Integrity (`buildStep3`).  After the null guard
on the raw inputs, the source reads `latest.clickSessionRatio!`, which is
still `null` when `shopifySessions` is not positive; each branch then calls
`ratio.toFixed(2)` inside its finding. -/
def buildStep3 (latest : CalculatedWeek) : Except JsError FunnelStep :=
  if latest.metaClicks.isNone || latest.shopifySessions.isNone then
    Except.ok { step := 3, status := Status.no_data }
  else
    let ratio := latest.clickSessionRatio
    if 1.5 < jsNum ratio then
      (toFixed ratio).map fun _ => { step := 3, status := Status.fail }
    else if 1.2 < jsNum ratio then
      (toFixed ratio).map fun _ => { step := 3, status := Status.warning }
    else
      (toFixed ratio).map fun _ => { step := 3, status := Status.pass }

/-- Step 4, Conversion Mechanics (`buildStep4`); the prior week only affects
the week-over-week sentence of the finding, never the status. -/
def buildStep4 (latest : CalculatedWeek) (_prev : Option CalculatedWeek) :
    FunnelStep :=
  match latest.cvr with
  | none => { step := 4, status := Status.no_data }
  | some cvr =>
      if cvr < 1.5 then { step := 4, status := Status.fail }
      else if cvr < 2.5 then { step := 4, status := Status.warning }
      else { step := 4, status := Status.pass }

/-- Step 5, New Customer Reality (`buildStep5`).  After the null guard the
source reads `latest.countPva!`, which is still `null` when `countForecast`
is exactly `0`; the status comparisons coerce it to `0` and the finding then
calls `pva.toFixed(0)`. -/
def buildStep5 (latest : CalculatedWeek) : Except JsError FunnelStep :=
  if latest.countActual.isNone || latest.countForecast.isNone then
    Except.ok { step := 5, status := Status.no_data }
  else
    let p := latest.countPva
    let status :=
      if 85 ≤ jsNum p then Status.pass
      else if 50 ≤ jsNum p then Status.warning
      else Status.fail
    (toFixed p).map fun _ => { step := 5, status := status }

/-- Step 6, Cash & CM Leak (`buildStep6`): `unitCm := unitCmActual ?? 0`;
the per-week gap sentences only affect the finding text. -/
def buildStep6 (latest : CalculatedWeek) : FunnelStep :=
  if latest.aovActual.isNone || latest.cacActual.isNone ||
      latest.cmActual.isNone then
    { step := 6, status := Status.no_data }
  else
    let unitCm := latest.unitCmActual.getD 0
    if 0 ≤ unitCm then { step := 6, status := Status.pass }
    else if -50 < unitCm then { step := 6, status := Status.warning }
    else { step := 6, status := Status.fail }

/-- RCA synthesis (`buildRCA` in `funnelDiagnostician.ts`): restricted to the
Tier-2 steps 2–4, partitioned into failed/warning/no-data; primary is the
first failed step, else the first warning step; the extra note is appended
when more than one step is unhealthy. -/
def buildRCA (module1 : Module1Result) (steps : List FunnelStep) :
    Option RCASummary :=
  match module1.latestWeek with
  | none => none
  | some _ =>
      let tier2Steps := steps.filter fun s => decide (s.step ∈ [2, 3, 4])
      let t2Fails := tier2Steps.filter fun s => s.status = Status.fail
      let t2Warnings := tier2Steps.filter fun s => s.status = Status.warning
      let t2NoData := tier2Steps.filter fun s => s.status = Status.no_data
      if t2NoData.length = tier2Steps.length then
        some RCASummary.collectTier2Data
      else if t2Fails.length = 0 ∧ t2Warnings.length = 0 then
        some RCASummary.tier2Healthy
      else
        match (t2Fails ++ t2Warnings).head? with
        | some primary =>
            some (RCASummary.primaryCause primary.step
              (decide (1 < (t2Fails ++ t2Warnings).length)))
        | none => some RCASummary.tier2Healthy

/-- The funnel diagnostician (`runModule2` in `funnelDiagnostician.ts`).
The six steps are built in order; a thrown `TypeError` in step 3 or step 5
aborts the evaluation, matching the sequential `steps.push(...)` calls. -/
def runModule2 (module1 : Module1Result) : Except JsError Module2Result :=
  match module1.latestWeek with
  | none =>
      Except.ok { allowed := false, allowedScope := AllowedScope.noData,
                  steps := [], rcaSummary := none }
  | some latest =>
      let weeks := module1.weeks
      let prev : Option CalculatedWeek :=
        if 2 ≤ weeks.length then weeks.get? (weeks.length - 2) else none
      let allowed : Bool := decide (module1.verdict ≠ Verdict.neither)
      let allowedScope :=
        if module1.verdict = Verdict.cm_problem ∨
            module1.verdict = Verdict.both then AllowedScope.leakHuntOnly
        else if module1.verdict = Verdict.volume_problem then
          AllowedScope.volumeGrowth
        else AllowedScope.noFunnelIssues
      do
        let s1 := buildStep1 latest prev
        let s2 := buildStep2 latest
        let s3 ← buildStep3 latest
        let s4 := buildStep4 latest prev
        let s5 ← buildStep5 latest
        let s6 := buildStep6 latest
        let steps := [s1, s2, s3, s4, s5, s6]
        let rcaSummary := buildRCA module1 steps
        return { allowed := allowed, allowedScope := allowedScope,
                 steps := steps, rcaSummary := rcaSummary }

/-! ## Concrete evaluation inputs -/

/-- Anchor week whose `shopifySessions` is present but zero. -/
def weekSessionsZero : WeekData :=
  { EMPTY_WEEK with
    adSpend := some 100, metaClicks := some 100, shopifySessions := some 0 }

/-- Anchor week whose `countForecast` is present but zero. -/
def weekForecastZero : WeekData :=
  { EMPTY_WEEK with countActual := some 10, countForecast := some 0 }

/-- Anchor week whose `countActual` is present but zero, with an AOV
shortfall on plan. -/
def weekCountZero : WeekData :=
  { EMPTY_WEEK with
    countActual := some 0, aovActual := some 50, aovForecast := some 80 }

/-- Latest week for the step-1 boundary: spend rose 15 % on the prior week. -/
def weekSpend115 : WeekData :=
  { EMPTY_WEEK with adSpend := some 115, countActual := some 10 }

/-- Prior week for the step-1 boundary. -/
def weekSpend100 : WeekData :=
  { EMPTY_WEEK with adSpend := some 100, countActual := some 10 }

/-- Spec Scenario A: unit CM twice worse than the planned loss and volume at
half of plan. -/
def scenarioA : WeekData :=
  { EMPTY_WEEK with
    adSpend := some 100, cmActual := some (-50), cmForecast := some (-10),
    countActual := some 10, countForecast := some 20, aovActual := some 50,
    aovForecast := some 80, cacActual := some 90, cacForecast := some 70 }

/-- Spec Scenario B: healthy unit CM but CAC exceeds AOV. -/
def scenarioB : WeekData :=
  { EMPTY_WEEK with
    cmActual := some 50, cmForecast := some 20, countActual := some 10,
    countForecast := some 10, cacActual := some 120, aovActual := some 100 }

/-- A week-with-data (spend only) whose `countPva` is undefined. -/
def weekSpendOnly : WeekData :=
  { EMPTY_WEEK with adSpend := some 100 }

/-! ## Helper lemmas -/

lemma runModule1_latestWeek (weeks : List WeekData) :
    (runModule1 weeks).latestWeek = (withDataOf weeks).getLast? := rfl

lemma runModule1_verdict (weeks : List WeekData) :
    (runModule1 weeks).verdict =
      (if hasCmProblem (withDataOf weeks).getLast? &&
          hasVolumeProblem (withDataOf weeks) then Verdict.both
       else if hasCmProblem (withDataOf weeks).getLast? then Verdict.cm_problem
       else if hasVolumeProblem (withDataOf weeks) then Verdict.volume_problem
       else Verdict.neither) := rfl

lemma runModule1_scalePermission (weeks : List WeekData) :
    (runModule1 weeks).scalePermission =
      (if hasCmProblem (withDataOf weeks).getLast? then ScalePermission.denied
       else ScalePermission.allowed) := rfl

lemma runModule1_scaleReason (weeks : List WeekData) :
    (runModule1 weeks).scaleReason =
      (if hasCmProblem (withDataOf weeks).getLast? then
        ScaleReason.cannotScaleIntoLosses
       else if hasVolumeProblem (withDataOf weeks) then
        ScaleReason.cmHealthyGrowVolume
       else ScaleReason.withinAcceptableRange) := rfl

lemma runModule1_biggestLeak (weeks : List WeekData) :
    (runModule1 weeks).biggestLeak =
      (biggestLeakOf (withDataOf weeks).getLast?).1 := rfl

lemma runModule1_biggestLeakDollars (weeks : List WeekData) :
    (runModule1 weeks).biggestLeakDollars =
      (biggestLeakOf (withDataOf weeks).getLast?).2 := rfl

/-! ## C2 — plan-vs-actual definedness -/

/-- C2, counterexample: `pva` is also undefined when the *actual* operand is
missing even though the forecast is present and nonzero, so "undefined iff
forecast is undefined or exactly 0" fails. -/
theorem pva_missing_actual_cex :
    pva none (some 5) = none ∧
      ¬((some (5 : ℚ)) = none ∨ (some (5 : ℚ)) = some 0) := by
  refine ⟨rfl, ?_⟩
  simp

/-- C2 (amended): `pva actual forecast` is undefined iff the actual is
undefined, the forecast is undefined, or the forecast is exactly `0`;
otherwise it equals `actual / forecast × 100` exactly (including when the
actual is `0` or negative). -/
theorem pva_defined_iff (actual forecast : Option ℚ) :
    (pva actual forecast = none ↔
      actual = none ∨ forecast = none ∨ forecast = some 0) ∧
    (∀ a f, actual = some a → forecast = some f → f ≠ 0 →
      pva actual forecast = some (a / f * 100)) := by
  constructor
  · cases actual with
    | none => simp [pva]
    | some a =>
        cases forecast with
        | none => simp [pva]
        | some f => by_cases hf : f = 0 <;> simp [pva, hf]
  · rintro a f rfl rfl hf
    simp [pva, hf]

/-- C2, witness: `pva 50 200 = 25`. -/
theorem pva_defined_iff_witness : pva (some 50) (some 200) = some 25 := by
  have h := (pva_defined_iff (some 50) (some 200)).2 50 200 rfl rfl
    (by norm_num)
  rw [h]
  norm_num

/-! ## C4 — verdict priority -/

/-- C4: the verdict is `both` exactly when the CM-problem and volume-problem
signals both hold, `cm_problem` when only the CM signal holds,
`volume_problem` when only the volume signal holds, and `neither` otherwise. -/
theorem verdict_priority (weeks : List WeekData) :
    ((runModule1 weeks).verdict = Verdict.both ↔
      hasCmProblem (withDataOf weeks).getLast? = true ∧
        hasVolumeProblem (withDataOf weeks) = true) ∧
    ((runModule1 weeks).verdict = Verdict.cm_problem ↔
      hasCmProblem (withDataOf weeks).getLast? = true ∧
        hasVolumeProblem (withDataOf weeks) = false) ∧
    ((runModule1 weeks).verdict = Verdict.volume_problem ↔
      hasCmProblem (withDataOf weeks).getLast? = false ∧
        hasVolumeProblem (withDataOf weeks) = true) ∧
    ((runModule1 weeks).verdict = Verdict.neither ↔
      hasCmProblem (withDataOf weeks).getLast? = false ∧
        hasVolumeProblem (withDataOf weeks) = false) := by
  rw [runModule1_verdict]
  cases hc : hasCmProblem (withDataOf weeks).getLast? <;>
    cases hv : hasVolumeProblem (withDataOf weeks) <;> simp

/-! ## C5 — scale permission -/

/-- C5: `scalePermission` is `denied` exactly when the CM signal holds and
`allowed` otherwise, with the allowed-case reason depending on whether a
volume problem co-exists; `leak_hunt_only` is never returned. -/
theorem scale_permission_spec (weeks : List WeekData) :
    ((runModule1 weeks).scalePermission = ScalePermission.denied ↔
      hasCmProblem (withDataOf weeks).getLast? = true) ∧
    ((runModule1 weeks).scalePermission = ScalePermission.allowed ↔
      hasCmProblem (withDataOf weeks).getLast? = false) ∧
    (runModule1 weeks).scalePermission ≠ ScalePermission.leak_hunt_only ∧
    (hasCmProblem (withDataOf weeks).getLast? = false →
      (runModule1 weeks).scaleReason =
        (if hasVolumeProblem (withDataOf weeks) then
          ScaleReason.cmHealthyGrowVolume
         else ScaleReason.withinAcceptableRange)) := by
  rw [runModule1_scalePermission, runModule1_scaleReason]
  cases hc : hasCmProblem (withDataOf weeks).getLast? <;> simp

/-- C5, witness: Scenario B is denied (CM signal true via the CAC/AOV gap);
the empty-data input is allowed with the default reason. -/
theorem scale_permission_spec_witness :
    (runModule1 [scenarioB]).scalePermission = ScalePermission.denied ∧
    (runModule1 [weekSpendOnly]).scaleReason =
      ScaleReason.withinAcceptableRange := by
  constructor
  · refine (scale_permission_spec [scenarioB]).1.mpr ?_
    simp [hasCmProblem, withDataOf, weekHasData, calcWeek, scenarioB,
      EMPTY_WEEK, pva]
    norm_num
  · have hc : hasCmProblem (withDataOf [weekSpendOnly]).getLast? = false := by
      simp [hasCmProblem, withDataOf, weekHasData, calcWeek, weekSpendOnly,
        EMPTY_WEEK]
    have h := (scale_permission_spec [weekSpendOnly]).2.2.2 hc
    rw [h]
    simp [hasVolumeProblem, avgCountPva, recentWeeksOf, avg, withDataOf,
      weekHasData, calcWeek, weekSpendOnly, EMPTY_WEEK, pva]

/-! ## C3 — CM-problem signal -/

lemma hasCmProblem_some_iff (l : CalculatedWeek) :
    hasCmProblem (some l) = true ↔
      ((∃ uf ua, l.unitCmForecast = some uf ∧ l.unitCmActual = some ua ∧
          uf < 0 ∧ ua < 2 * uf) ∨
       (∃ ua uf, l.unitCmActual = some ua ∧ ua < 0 ∧
          l.unitCmForecast = some uf ∧ 0 ≤ uf) ∨
       (∃ g, l.cacAovGap = some g ∧ 0 < g)) := by
  unfold hasCmProblem
  rcases hA : l.unitCmActual with _ | ua <;>
    rcases hF : l.unitCmForecast with _ | uf <;>
      rcases hG : l.cacAovGap with _ | g <;>
        simp [hA, hF, hG]
  all_goals (by_cases huf : uf < 0 <;>
    first
      | simp [huf, mul_comm, not_le.mpr huf]
      | simp [huf, not_lt.mp huf])

lemma verdict_cm_iff (weeks : List WeekData) :
    ((runModule1 weeks).verdict = Verdict.cm_problem ∨
      (runModule1 weeks).verdict = Verdict.both) ↔
      hasCmProblem (withDataOf weeks).getLast? = true := by
  rw [runModule1_verdict]
  cases hc : hasCmProblem (withDataOf weeks).getLast? <;>
    cases hv : hasVolumeProblem (withDataOf weeks) <;> simp

/-- C3: for a non-empty weeks-with-data set, the CM-problem signal (the
verdict reporting a CM problem) holds exactly when (a) both unit-CM values
are defined, the forecast is negative and the actual is below twice the
forecast, or (b) the actual unit CM is defined and negative while the
forecast is defined and non-negative, or (c) the anchor's `cacAovGap` is
defined and strictly positive. -/
theorem cm_problem_signal_iff (weeks : List WeekData) (l : CalculatedWeek)
    (h : (runModule1 weeks).latestWeek = some l) :
    ((runModule1 weeks).verdict = Verdict.cm_problem ∨
      (runModule1 weeks).verdict = Verdict.both) ↔
      ((∃ uf ua, l.unitCmForecast = some uf ∧ l.unitCmActual = some ua ∧
          uf < 0 ∧ ua < 2 * uf) ∨
       (∃ ua uf, l.unitCmActual = some ua ∧ ua < 0 ∧
          l.unitCmForecast = some uf ∧ 0 ≤ uf) ∨
       (∃ g, l.cacAovGap = some g ∧ 0 < g)) := by
  have hl : (withDataOf weeks).getLast? = some l := by
    rw [← runModule1_latestWeek]
    exact h
  rw [verdict_cm_iff, hl, hasCmProblem_some_iff]

/-- C3, witness: Scenario B (CAC 120 vs AOV 100, healthy unit CM) trips the
CM signal through case (c). -/
theorem cm_problem_signal_iff_witness :
    (runModule1 [scenarioB]).verdict = Verdict.cm_problem ∨
      (runModule1 [scenarioB]).verdict = Verdict.both := by
  have hl : (runModule1 [scenarioB]).latestWeek = some (calcWeek scenarioB) := by
    rw [runModule1_latestWeek]
    simp [withDataOf, weekHasData, calcWeek, scenarioB, EMPTY_WEEK]
  refine (cm_problem_signal_iff [scenarioB] (calcWeek scenarioB) hl).mpr ?_
  refine Or.inr (Or.inr ⟨20, ?_, by norm_num⟩)
  simp [calcWeek, scenarioB, EMPTY_WEEK]
  norm_num

/-! ## C6 — volume-problem signal -/

/-- C6: the volume signal averages the `countPva` of the last three
weeks-with-data ignoring undefined entries; it holds exactly when that
average is defined and below 70; when every entry in the window is
undefined the average is undefined and the signal is false; and the verdict
reports a volume problem exactly when the signal holds. -/
theorem volume_signal_spec (weeks : List WeekData) :
    (avgCountPva (withDataOf weeks) =
      (if (((recentWeeksOf (withDataOf weeks)).map (·.countPva)).filterMap
            id).length = 0 then none
       else some ((((recentWeeksOf (withDataOf weeks)).map
            (·.countPva)).filterMap id).sum /
          (((recentWeeksOf (withDataOf weeks)).map (·.countPva)).filterMap
            id).length))) ∧
    (hasVolumeProblem (withDataOf weeks) = true ↔
      ∃ a, avgCountPva (withDataOf weeks) = some a ∧ a < 70) ∧
    ((∀ v ∈ (recentWeeksOf (withDataOf weeks)).map (·.countPva), v = none) →
      avgCountPva (withDataOf weeks) = none ∧
        hasVolumeProblem (withDataOf weeks) = false) ∧
    (((runModule1 weeks).verdict = Verdict.volume_problem ∨
      (runModule1 weeks).verdict = Verdict.both) ↔
      hasVolumeProblem (withDataOf weeks) = true) := by
  have hnone : (∀ v ∈ (recentWeeksOf (withDataOf weeks)).map (·.countPva),
      v = none) → avgCountPva (withDataOf weeks) = none := by
    intro hall
    have hnil : (((recentWeeksOf (withDataOf weeks)).map
        (·.countPva)).filterMap id) = [] :=
      List.filterMap_eq_nil_iff.mpr (by simpa using hall)
    unfold avgCountPva avg
    simp [hnil]
  refine ⟨rfl, ?_, ?_, ?_⟩
  · unfold hasVolumeProblem
    cases ha : avgCountPva (withDataOf weeks) <;> simp [ha]
  · intro hall
    have h0 := hnone hall
    refine ⟨h0, ?_⟩
    unfold hasVolumeProblem
    rw [h0]
  · rw [runModule1_verdict]
    cases hc : hasCmProblem (withDataOf weeks).getLast? <;>
      cases hv : hasVolumeProblem (withDataOf weeks) <;> simp

/-- C6, witness: a week with only spend has an undefined `countPva`, so the
average is undefined and no volume problem is declared. -/
theorem volume_signal_spec_witness :
    avgCountPva (withDataOf [weekSpendOnly]) = none ∧
      hasVolumeProblem (withDataOf [weekSpendOnly]) = false := by
  refine (volume_signal_spec [weekSpendOnly]).2.2.1 ?_
  simp [recentWeeksOf, withDataOf, weekHasData, calcWeek, weekSpendOnly,
    EMPTY_WEEK, pva]

/-! ## C7 — biggest dollar leak -/

/-- C7, counterexample: at an anchor week whose `countActual` is present but
zero (with an AOV shortfall on plan), the code's truthiness guard skips the
comparison entirely and emits the empty leak report, instead of comparing
the two zero-dollar gaps and reporting the AOV candidate. -/
theorem biggest_leak_zero_count_cex :
    (runModule1 [weekCountZero]).latestWeek = some (calcWeek weekCountZero) ∧
    (calcWeek weekCountZero).countActual = some 0 ∧
    (runModule1 [weekCountZero]).biggestLeak = BiggestLeak.noLeak ∧
    (runModule1 [weekCountZero]).biggestLeak ≠ BiggestLeak.aovShortfall := by
  refine ⟨?_, ?_, ?_, ?_⟩ <;>
    simp [runModule1_latestWeek, runModule1_biggestLeak, biggestLeakOf,
      withDataOf, weekHasData, calcWeek, weekCountZero, EMPTY_WEEK, pva]

/-- C7 (amended): when the anchor week's `countActual` is present *and
nonzero*, the report compares the CAC overspend in dollars against the AOV
shortfall in dollars (each taken as `0` when an operand is missing), its
dollar figure is the larger of the two, and the CAC candidate is chosen
exactly when it is strictly larger (ties go to the AOV candidate, i.e. the
fixed first-match-wins order over (CAC-gap, AOV-gap) as coded). -/
theorem biggest_leak_spec (weeks : List WeekData) (l : CalculatedWeek)
    (n : ℚ) (h : (runModule1 weeks).latestWeek = some l)
    (hn : l.countActual = some n) (hn0 : n ≠ 0) :
    (runModule1 weeks).biggestLeakDollars =
      max (cacGapDollarsOf l n) (aovGapDollarsOf l n) ∧
    ((runModule1 weeks).biggestLeak =
      if aovGapDollarsOf l n < cacGapDollarsOf l n then
        BiggestLeak.cacOverspend
      else BiggestLeak.aovShortfall) := by
  have hl : (withDataOf weeks).getLast? = some l := by
    rw [← runModule1_latestWeek]
    exact h
  rw [runModule1_biggestLeakDollars, runModule1_biggestLeak, hl]
  simp only [biggestLeakOf, hn]
  rw [if_neg hn0]
  rcases lt_or_le (aovGapDollarsOf l n) (cacGapDollarsOf l n) with hlt | hle
  · rw [if_pos hlt, if_pos hlt]
    exact ⟨(max_eq_left hlt.le).symm, rfl⟩
  · rw [if_neg (not_lt.mpr hle), if_neg (not_lt.mpr hle)]
    exact ⟨(max_eq_right hle).symm, rfl⟩

/-- C7, witness: Scenario A (CAC gap $200/week vs AOV gap $300/week at 10
customers) reports the AOV shortfall at $300. -/
theorem biggest_leak_spec_witness :
    (runModule1 [scenarioA]).biggestLeakDollars = 300 ∧
    (runModule1 [scenarioA]).biggestLeak = BiggestLeak.aovShortfall := by
  have hl : (runModule1 [scenarioA]).latestWeek = some (calcWeek scenarioA) := by
    rw [runModule1_latestWeek]
    simp [withDataOf, weekHasData, calcWeek, scenarioA, EMPTY_WEEK]
  have hn : (calcWeek scenarioA).countActual = some 10 := by
    simp [calcWeek, scenarioA, EMPTY_WEEK]
  have h := biggest_leak_spec [scenarioA] (calcWeek scenarioA) 10 hl hn
    (by norm_num)
  have hcac : cacGapDollarsOf (calcWeek scenarioA) 10 = 200 := by
    simp [cacGapDollarsOf, calcWeek, scenarioA, EMPTY_WEEK]
    norm_num
  have haov : aovGapDollarsOf (calcWeek scenarioA) 10 = 300 := by
    simp [aovGapDollarsOf, calcWeek, scenarioA, EMPTY_WEEK]
    norm_num
  rcases h with ⟨h1, h2⟩
  rw [hcac, haov] at h1 h2
  refine ⟨?_, ?_⟩
  · rw [h1]
    norm_num
  · rw [h2]
    norm_num

/-! ## C8 — funnel step 1 proportionality -/

/-- C8, counterexample: spend rose exactly 15 points more than orders
(spend +15 %, orders 0 %); the gap does not *exceed* 15, yet the step is
flagged `fail` rather than passing. -/
theorem step1_gap_boundary_cex :
    (buildStep1 (calcWeek weekSpend115) (some (calcWeek weekSpend100))).status
      = Status.fail ∧
    ¬(15 <
      |(115 - 100) / (100 : ℚ) * 100 - (10 - 10) / (10 : ℚ) * 100|) := by
  constructor
  · simp [buildStep1, calcWeek, weekSpend115, weekSpend100, EMPTY_WEEK]
    norm_num
  · norm_num

/-- C8 (amended): with both weeks' spend and order counts present and the
prior values nonzero, the step is flagged exactly when the absolute gap
between the percentage changes is *at least* 15 points — `fail` when spend
rose while orders did not, `warning` otherwise — and passes when the gap is
below 15 points. -/
theorem step1_gap_spec (latest p : CalculatedWeek) (sp ct pa pc : ℚ)
    (h1 : latest.adSpend = some sp) (h2 : latest.countActual = some ct)
    (h3 : p.adSpend = some pa) (h4 : pa ≠ 0)
    (h5 : p.countActual = some pc) (h6 : pc ≠ 0) :
    (buildStep1 latest (some p)).status =
      (if 15 ≤ |(sp - pa) / pa * 100 - (ct - pc) / pc * 100| then
        (if 0 < (sp - pa) / pa * 100 ∧ (ct - pc) / pc * 100 ≤ 0 then
          Status.fail
         else Status.warning)
       else Status.pass) := by
  unfold buildStep1
  rw [h1, h2]
  simp only [Option.some_bind, h3, h4, if_false, h5, h6]
  set sc := (sp - pa) / pa * 100 with hsc
  set oc := (ct - pc) / pc * 100 with hoc
  by_cases hgap : |sc - oc| < 15
  · rw [if_neg (not_le.mpr hgap)]
    have hng : ¬(¬(|sc - oc| < 15) ∧ 0 < sc ∧ oc ≤ 0) := by
      intro hcon
      exact hcon.1 hgap
    rw [if_neg hng, if_neg (by simpa using hgap)]
  · rw [if_pos (not_lt.mp hgap)]
    by_cases hdir : 0 < sc ∧ oc ≤ 0
    · rw [if_pos ⟨hgap, hdir⟩, if_pos hdir]
    · have hng : ¬(¬(|sc - oc| < 15) ∧ 0 < sc ∧ oc ≤ 0) := by
        intro hcon
        exact hdir hcon.2
      rw [if_neg hng, if_neg hdir, if_pos (by simpa using hgap)]

/-- C8, witness: spend +30 % with orders unchanged is a 30-point gap and a
`fail`. -/
theorem step1_gap_spec_witness :
    (buildStep1 (calcWeek { EMPTY_WEEK with
        adSpend := some 130, countActual := some 10 })
      (some (calcWeek weekSpend100))).status = Status.fail := by
  have h := step1_gap_spec
    (calcWeek { EMPTY_WEEK with adSpend := some 130, countActual := some 10 })
    (calcWeek weekSpend100) 130 10 100 10
    (by simp [calcWeek, EMPTY_WEEK]) (by simp [calcWeek, EMPTY_WEEK])
    (by simp [calcWeek, weekSpend100, EMPTY_WEEK]) (by norm_num)
    (by simp [calcWeek, weekSpend100, EMPTY_WEEK]) (by norm_num)
  rw [h]
  norm_num

/-! ## C9 — RCA synthesis -/

/-- Spec-side restatement for the RCA claim: a step status is unhealthy when
it is failed or warning. -/
def specUnhealthy (s : Status) : Bool :=
  s == Status.fail || s == Status.warning

/-- Spec-side restatement for the RCA claim: how many of the three Tier-2
statuses are unhealthy. -/
def specUnhealthyCount (a b c : Status) : Nat :=
  (if specUnhealthy a then 1 else 0) + (if specUnhealthy b then 1 else 0) +
    (if specUnhealthy c then 1 else 0)

/-- C9: over the six ordered steps produced by the diagnostician, the RCA
looks only at steps 2–4: all-`no_data` yields the collect-data summary;
no failed or warning step yields the healthy-funnel summary; otherwise the
primary cause is the first failed step in step-number order, else the first
warning step, and the extra note is attached exactly when more than one of
the three steps is unhealthy. -/
theorem rca_synthesis_spec (m : Module1Result) (l : CalculatedWeek)
    (hm : m.latestWeek = some l) (st1 st2 st3 st4 st5 st6 : Status) :
    buildRCA m [⟨1, st1⟩, ⟨2, st2⟩, ⟨3, st3⟩, ⟨4, st4⟩, ⟨5, st5⟩,
        ⟨6, st6⟩] =
      (if st2 = Status.no_data ∧ st3 = Status.no_data ∧ st4 = Status.no_data
       then some RCASummary.collectTier2Data
       else if specUnhealthyCount st2 st3 st4 = 0 then
         some RCASummary.tier2Healthy
       else
         some (RCASummary.primaryCause
           (if st2 = Status.fail then 2
            else if st3 = Status.fail then 3
            else if st4 = Status.fail then 4
            else if st2 = Status.warning then 2
            else if st3 = Status.warning then 3
            else 4)
           (decide (1 < specUnhealthyCount st2 st3 st4)))) := by
  simp only [buildRCA, hm]
  cases st2 <;> cases st3 <;> cases st4 <;> rfl

/-- C9, witness: with step 3 failed and step 4 warning, the primary cause is
step 3 and the multiple-breakpoints note is attached. -/
theorem rca_synthesis_spec_witness :
    buildRCA (runModule1 [scenarioB])
      [⟨1, Status.pass⟩, ⟨2, Status.pass⟩, ⟨3, Status.fail⟩,
       ⟨4, Status.warning⟩, ⟨5, Status.pass⟩, ⟨6, Status.pass⟩] =
      some (RCASummary.primaryCause 3 true) := by
  have hl : (runModule1 [scenarioB]).latestWeek =
      some (calcWeek scenarioB) := by
    rw [runModule1_latestWeek]
    simp [withDataOf, weekHasData, calcWeek, scenarioB, EMPTY_WEEK]
  have h := rca_synthesis_spec (runModule1 [scenarioB]) (calcWeek scenarioB)
    hl Status.pass Status.pass Status.fail Status.warning Status.pass
    Status.pass
  rw [h]
  rfl

/-! ## C10 — graceful empty-data behaviour -/

/-- C10: when no week has `adSpend`, `cmActual` or `countActual`, the
governor returns a null anchor, verdict `neither`, permission `allowed` and
an empty leak report; and the diagnostician applied to a null-anchor result
returns not-allowed, the no-data scope, no steps and no RCA. -/
theorem no_data_graceful (weeks : List WeekData) (m : Module1Result)
    (hempty : ∀ w ∈ weeks,
      w.adSpend = none ∧ w.cmActual = none ∧ w.countActual = none)
    (hm : m.latestWeek = none) :
    (runModule1 weeks).latestWeek = none ∧
    (runModule1 weeks).verdict = Verdict.neither ∧
    (runModule1 weeks).scalePermission = ScalePermission.allowed ∧
    (runModule1 weeks).biggestLeak = BiggestLeak.noLeak ∧
    runModule2 m = Except.ok
      { allowed := false, allowedScope := AllowedScope.noData, steps := [],
        rcaSummary := none } := by
  have hwd : withDataOf weeks = [] := by
    unfold withDataOf
    rw [List.filter_eq_nil_iff]
    intro a ha
    rcases List.mem_map.mp ha with ⟨w, hw, rfl⟩
    rcases hempty w hw with ⟨h1, h2, h3⟩
    simp [weekHasData, calcWeek, h1, h2, h3]
  have hlat : (withDataOf weeks).getLast? = none := by
    rw [hwd]
    rfl
  have hvol : hasVolumeProblem (withDataOf weeks) = false := by
    simp [hasVolumeProblem, avgCountPva, recentWeeksOf, avg, hwd]
  have hcm : hasCmProblem (withDataOf weeks).getLast? = false := by
    rw [hlat]
    rfl
  refine ⟨?_, ?_, ?_, ?_, ?_⟩
  · rw [runModule1_latestWeek, hlat]
  · rw [runModule1_verdict, hcm, hvol]
    rfl
  · rw [runModule1_scalePermission, hcm]
    rfl
  · rw [runModule1_biggestLeak, hlat]
    rfl
  · simp [runModule2, hm]

/-- C10, witness: a single all-`null` week. -/
theorem no_data_graceful_witness :
    (runModule1 [EMPTY_WEEK]).verdict = Verdict.neither ∧
    runModule2 (runModule1 [EMPTY_WEEK]) = Except.ok
      { allowed := false, allowedScope := AllowedScope.noData, steps := [],
        rcaSummary := none } := by
  have hm : (runModule1 [EMPTY_WEEK]).latestWeek = none := by
    rw [runModule1_latestWeek]
    simp [withDataOf, weekHasData, calcWeek, EMPTY_WEEK]
  have h := no_data_graceful [EMPTY_WEEK] (runModule1 [EMPTY_WEEK])
    (by
      intro w hw
      simp only [List.mem_singleton] at hw
      subst hw
      exact ⟨rfl, rfl, rfl⟩)
    hm
  exact ⟨h.2.1, h.2.2.2.2⟩

/-! ## C1 — totality under present-but-zero operands -/

/-- C1: the funnel evaluation is *not* total on weeks-with-data inputs.
At an anchor week with `metaClicks` present and `shopifySessions` present
but zero, step 3's non-null assertion on `clickSessionRatio` is violated and
the finding's `toFixed` call throws a `TypeError`; likewise at an anchor
week with `countActual` present and `countForecast` present but zero in
step 5 via `countPva`.  (With genuinely *missing* operands the steps do
degrade to `no_data`.) -/
theorem zero_operand_type_error :
    runModule2 (runModule1 [weekSessionsZero]) =
      Except.error JsError.typeError ∧
    runModule2 (runModule1 [weekForecastZero]) =
      Except.error JsError.typeError := by
  constructor <;>
  · simp [runModule2, runModule1, withDataOf, weekHasData, calcWeek,
      weekSessionsZero, weekForecastZero, EMPTY_WEEK, pva, hasCmProblem,
      hasVolumeProblem, avgCountPva, recentWeeksOf, avg, cmMirageOf,
      biggestLeakOf, buildStep1, buildStep2, buildStep3, buildStep4,
      buildStep5, buildStep6, jsNum, toFixed]
    norm_num [Except.map, Except.instMonad, Except.bind]
